import Mathlib

/-!
# Verification of the Proof-of-Training (PoT) consensus core

A shallow embedding of the PoT repository's core data model and operations,
together with theorems settling the frozen claims about it.

Conventions of the embedding:

* Python `dict`s (insertion-ordered, string-keyed) are modelled as association
  lists `List (String × α)` with `dictGet?` / `dictSet` / `dictMem`.
* Byte strings are `List Nat` (one `Nat` per byte).
* Python `None`-able fields are `Option _`.
* External libraries are not re-implemented; they are abstracted faithfully:
  `hashlib.sha256` becomes an explicit function argument (the claims under
  study never depend on the value of the digest, only on what is fed to it);
  Ed25519 (the `cryptography` package) is modelled symbolically (`Sig`,
  `sign_message`, `verify_signature`): a signature records the signing key and
  the exact signed bytes, and verification checks both — the standard ideal
  model of an EUF-CMA signature scheme, in which a key pair is identified with
  a single `Nat`; `pickle.dumps` becomes an explicit function argument (with
  the concrete instance `pickleModel` used to evaluate closed statements);
  Python's seeded `random.sample` becomes an explicit function argument, which
  expresses exactly that the PRNG is a deterministic function of its seed and
  of the (ordered) population handed to it.
* Operations that can raise (`KeyError`, indexing an empty list) return
  `Option _`, or are total where the source wraps them in `try/except`.
-/

set_option autoImplicit false

namespace PoT

/-! ## Python dict model -/

/-- `d[k]` as a total lookup: `none` models a `KeyError`. -/
def dictGet? {α : Type} (d : List (String × α)) (k : String) : Option α :=
  (d.find? (fun p => p.1 == k)).map (·.2)

/-- `k in d`. -/
def dictMem {α : Type} (d : List (String × α)) (k : String) : Bool :=
  (dictGet? d k).isSome

/-- `d[k] = v`: overwrite in place if present, else append (Python dicts keep
insertion order). -/
def dictSet {α : Type} (d : List (String × α)) (k : String) (v : α) :
    List (String × α) :=
  match d with
  | [] => [(k, v)]
  | (k', v') :: rest =>
      if k' == k then (k', v) :: rest else (k', v') :: dictSet rest k v

theorem dictGet?_dictSet_self {α : Type} (d : List (String × α)) (k : String) (v : α) :
    dictGet? (dictSet d k v) k = some v := by
  induction d with
  | nil => simp [dictGet?, dictSet]
  | cons p rest ih =>
      obtain ⟨k', v'⟩ := p
      by_cases h : k' = k
      · simp [dictGet?, dictSet, h]
      · simpa [dictGet?, dictSet, h, List.find?] using ih

theorem dictGet?_dictSet_ne {α : Type} (d : List (String × α)) (k k' : String) (v : α)
    (h : k' ≠ k) : dictGet? (dictSet d k v) k' = dictGet? d k' := by
  have h0 : (k == k') = false := beq_eq_false_iff_ne.mpr (fun e => h e.symm)
  induction d with
  | nil => simp [dictGet?, dictSet, List.find?, h0]
  | cons p rest ih =>
      obtain ⟨k₀, v₀⟩ := p
      by_cases hk : k₀ = k
      · subst hk
        simp [dictGet?, dictSet, List.find?, h0]
      · cases hbe : (k₀ == k') with
        | true => simp [dictGet?, dictSet, List.find?, beq_iff_eq, hk, hbe]
        | false => simpa [dictGet?, dictSet, List.find?, beq_iff_eq, hk, hbe] using ih

/-! ## Symbolic Ed25519 (`network/cryptographic_utils.py`) -/

/-- An ideal Ed25519 signature: it determines the signing key and the signed
bytes.  A key pair is identified with one `Nat` (the `public_key` fields below
store that identifier; PEM encoding is transparent in the model). -/
structure Sig where
  key : Nat
  msg : List Nat
deriving Repr, DecidableEq

/-- `sign_message(private_key, message)`. -/
def sign_message (private_key : Nat) (message : List Nat) : Sig :=
  ⟨private_key, message⟩

/-- `verify_signature(public_key, message, signature)`: in the ideal model the
signature verifies iff it was produced under the matching key over exactly
`message`. -/
def verify_signature (public_key : Nat) (message : List Nat) (signature : Sig) :
    Bool :=
  signature.key == public_key && signature.msg == message

/-! ## Transactions (`network/transaction.py`)

`sender`, `amount` and `receiver` are carried by their Python `str(...)` forms:
the class only ever uses them through `str` when computing `id`, so this is a
faithful (injective per object) view of those fields for everything the claims
touch. -/

structure Transaction where
  sender : String
  amount : String
  receiver : String
  employee_name : Option String
  timestamp : String
  id : String
deriving Repr, DecidableEq

/-- `Transaction.__init__`: `sha256hex` abstracts
`hashlib.sha256(data).hexdigest()` and `now` the construction-time
`datetime.now().strftime(...)` value. -/
def Transaction.make (sha256hex : String → String) (now : String)
    (sender amount receiver : String) (employee_name : Option String) :
    Transaction :=
  { sender := sender, amount := amount, receiver := receiver
    employee_name := employee_name, timestamp := now
    id := sha256hex (sender ++ amount ++ receiver ++ now) }

/-- `Transaction.__eq__` (identity is by `id`). -/
def Transaction.eqPy (t u : Transaction) : Bool :=
  t.id == u.id

/-- `Transaction.set_employee_name`. -/
def Transaction.set_employee_name (t : Transaction) (employee_name : String) :
    Transaction :=
  { t with employee_name := some employee_name }

/-! ## Training declarations and their book
(`pos_messages/training_declaration.py`, `pos_messages/training_declarations_book.py`) -/

structure TrainingDeclaration where
  id_m : String
  id_s : String
  public_key : Nat
  timestamp : String
  coinstake : Nat
  training_secret_commitment : Sig
  h_s : String
  signature : Option Sig
deriving Repr, DecidableEq

/-- One value of the TD book's outer dict:
`{"open": ..., "training_declarations": [...]}` (`open` is a Lean keyword, so
the field is `open_flag`). -/
structure TDStage where
  open_flag : Bool
  training_declarations : List TrainingDeclaration
deriving Repr, DecidableEq

structure TrainingDeclarationsBook where
  owner_name : String
  book : List (String × TDStage)
deriving Repr, DecidableEq

/-- `TrainingDeclarationsBook.add_training_declaration_to_book`. -/
def add_training_declaration_to_book (b : TrainingDeclarationsBook)
    (td : TrainingDeclaration) : TrainingDeclarationsBook :=
  let id_s := td.id_s
  let book1 :=
    if dictMem b.book id_s then b.book
    else dictSet b.book id_s ⟨true, []⟩
  match dictGet? book1 id_s with
  | none => b -- unreachable: the entry was just ensured to exist
  | some stage =>
      if stage.open_flag = false then { b with book := book1 }
      else
        { b with
          book := dictSet book1 id_s
            { stage with
              training_declarations := stage.training_declarations ++ [td] } }

/-- `TrainingDeclarationsBook.get_training_declarations`; `none` models the
`KeyError` the bare `self.book[id_s]` raises on an unknown stage. -/
def get_training_declarations (b : TrainingDeclarationsBook) (id_s : String) :
    Option (List TrainingDeclaration) :=
  (dictGet? b.book id_s).map (·.training_declarations)

/-- `TrainingDeclarationsBook.get_training_declarations_num` (total: the source
catches `KeyError` and returns 0). -/
def get_training_declarations_num (b : TrainingDeclarationsBook)
    (id_s : String) : Nat :=
  match dictGet? b.book id_s with
  | none => 0
  | some stage => stage.training_declarations.length

/-- `TrainingDeclarationsBook.close`; `none` models the `KeyError` raised when
`id_s` is not in the book. -/
def TrainingDeclarationsBook.close (b : TrainingDeclarationsBook)
    (id_s : String) : Option TrainingDeclarationsBook :=
  match dictGet? b.book id_s with
  | none => none
  | some stage =>
      some { b with book := dictSet b.book id_s { stage with open_flag := false } }

/-! ## Block headers, stakeholder signatures and the SS book
(`pos_messages/block_header.py`, `poa_messages/stakeholder_signature.py`,
`poa_messages/stakeholder_signatures_book.py`) -/

structure BlockHeader where
  id_m : String
  id_s : String
  public_key : Nat
  timestamp : String
  coinstake : Nat
  parent_block_hash : List Nat
  block_index : Nat
  training_secret : List Nat
  training_declarations : List TrainingDeclaration
  signature : Option Sig
deriving Repr, DecidableEq

structure StakeholderSignature where
  block_header : BlockHeader
  block_header_id : String
  public_key : Nat
  signature : Sig
deriving Repr, DecidableEq

/-- One value of the inner `sh_info` dict: `{"sigs": [...], "roy": roy}`. -/
structure SSEntry where
  sigs : List StakeholderSignature
  roy : Option Bool
deriving Repr, DecidableEq

/-- One value of the SS book's outer dict:
`{"open": ..., "sh_info": {...}}`. -/
structure SSStage where
  open_flag : Bool
  sh_info : List (String × SSEntry)
deriving Repr, DecidableEq

structure StakeholderSignaturesBook where
  owner_name : String
  book : List (String × SSStage)
deriving Repr, DecidableEq

/-- `StakeholderSignaturesBook.add_signature_to_book`.  `getId` abstracts
`BlockHeader.get_id()` (the first 8 hex characters of the SHA-256 of the
pickled header).  Mirrors the source's statement order: the fresh per-header
entry for an unseen `id_bh` is installed *before* the `open` check. -/
def add_signature_to_book (getId : BlockHeader → String)
    (b : StakeholderSignaturesBook) (ss : StakeholderSignature)
    (roy : Option Bool) : StakeholderSignaturesBook :=
  let id_s := ss.block_header.id_s
  let id_bh := getId ss.block_header
  let book1 :=
    if dictMem b.book id_s then b.book
    else dictSet b.book id_s ⟨true, [(id_bh, ⟨[], roy⟩)]⟩
  match dictGet? book1 id_s with
  | none => b -- unreachable: the entry was just ensured to exist
  | some stage =>
      let stage1 :=
        if dictMem stage.sh_info id_bh then stage
        else { stage with sh_info := dictSet stage.sh_info id_bh ⟨[], roy⟩ }
      let book2 := dictSet book1 id_s stage1
      if stage1.open_flag = false then { b with book := book2 }
      else
        match dictGet? stage1.sh_info id_bh with
        | none => { b with book := book2 } -- unreachable
        | some entry =>
            { b with
              book := dictSet book2 id_s
                { stage1 with
                  sh_info := dictSet stage1.sh_info id_bh
                    { entry with sigs := entry.sigs ++ [ss] } } }

/-- `StakeholderSignaturesBook.get_signatures_for_block_header` (total: the
source catches `KeyError` and returns `[]`). -/
def get_signatures_for_block_header (b : StakeholderSignaturesBook)
    (id_s id_bh : String) : List StakeholderSignature :=
  match dictGet? b.book id_s with
  | none => []
  | some stage =>
      match dictGet? stage.sh_info id_bh with
      | none => []
      | some entry => entry.sigs

/-- `StakeholderSignaturesBook.get_signatures_num` (total: the source catches
`KeyError` and returns 0). -/
def get_signatures_num (b : StakeholderSignaturesBook) (id_s id_bh : String) :
    Nat :=
  match dictGet? b.book id_s with
  | none => 0
  | some stage =>
      match dictGet? stage.sh_info id_bh with
      | none => 0
      | some entry => entry.sigs.length

/-- `StakeholderSignaturesBook.close` (total: the source catches `KeyError`
and returns). -/
def StakeholderSignaturesBook.close (b : StakeholderSignaturesBook)
    (id_s : String) : StakeholderSignaturesBook :=
  match dictGet? b.book id_s with
  | none => b
  | some stage =>
      { b with book := dictSet b.book id_s { stage with open_flag := false } }

/-- `StakeholderSignaturesBook.is_open`. -/
def StakeholderSignaturesBook.is_open (b : StakeholderSignaturesBook)
    (id_s : String) : Bool :=
  match dictGet? b.book id_s with
  | some stage => stage.open_flag
  | none => true

/-! ## The hashable-signable message base
(`simulation/hashable_serializable_message.py`)

The subclass payloads are abstracted into a single `payload` string standing
for the remaining pickled fields; `pickle.dumps` is an explicit argument of
each operation. -/

/-- `bytes.hex()` for one byte. -/
def byteHex (b : Nat) : String :=
  String.mk [Nat.digitChar (b / 16 % 16), Nat.digitChar (b % 16)]

/-- `bytes.hex()`. -/
def bytesHex (bs : List Nat) : String :=
  String.join (bs.map byteHex)

structure PoTMessage where
  id_m : String
  id_s : String
  public_key : Nat
  timestamp : String
  signature : Option Sig
  payload : String
deriving Repr, DecidableEq

/-- `HashSignSerialPoTMessage.dumps_without_sig`, as explicit state passing:
the source mutates `self.signature` to `None`, pickles, and restores the saved
(deep-copied) signature; the returned pair is (the object after the call, the
returned bytes). -/
def dumps_without_sig (pickle : PoTMessage → List Nat) (m : PoTMessage) :
    PoTMessage × List Nat :=
  let signature_tmp := m.signature
  let m1 := { m with signature := none }
  let data := pickle m1
  ({ m1 with signature := signature_tmp }, data)

/-- `HashSignSerialPoTMessage.calculate_hash`: SHA-256 of
`dumps_without_sig()`; same state-passing view. -/
def PoTMessage.calculate_hash (pickle : PoTMessage → List Nat)
    (sha256 : List Nat → List Nat) (m : PoTMessage) : PoTMessage × List Nat :=
  let r := dumps_without_sig pickle m
  (r.1, sha256 r.2)

/-- `HashSignSerialPoTMessage.sign`: note that the source signs
`pickle.dumps(self)` — the pickle of the message *with its current
`signature` field* — and then stores the result via `set_signature`. -/
def PoTMessage.sign (pickle : PoTMessage → List Nat) (m : PoTMessage)
    (private_key : Nat) : PoTMessage :=
  let signature := sign_message private_key (pickle m)
  { m with signature := some signature }

/-- A concrete, computable stand-in for `pickle.dumps` used to evaluate closed
statements: a byte encoding of the message record that separates the fields
and distinguishes `signature = none` from any `signature = some _`. -/
def encodeString (s : String) : List Nat :=
  s.length :: s.toList.map Char.toNat

def encodeSigOpt : Option Sig → List Nat
  | none => [0]
  | some sg => 1 :: sg.key :: sg.msg.length :: sg.msg

def pickleModel (m : PoTMessage) : List Nat :=
  encodeString m.id_m ++ encodeString m.id_s ++ [m.public_key] ++
    encodeString m.timestamp ++ encodeSigOpt m.signature ++
    encodeString m.payload

/-- `HashSignSerialPoTMessage.get_id`: the first 8 hex characters of the
hash; same state-passing view. -/
def PoTMessage.get_id (pickle : PoTMessage → List Nat)
    (sha256 : List Nat → List Nat) (m : PoTMessage) : PoTMessage × String :=
  let r := m.calculate_hash pickle sha256
  (r.1, (bytesHex r.2).take 8)

/-! ## Blocks and the chain (`blockchain/block.py`, `blockchain/blockchain.py`) -/

/-- Protocol constants (`simulation/constants.py`). -/
def EMPLOYEES_NUM : Nat := 11

def STAKEHOLDERS_NUM : Nat := 3

def TARGET_BLOCKCHAIN_LENGTH : Nat := 6

def EMPLOYER_CONFIDENCE : Nat := 3

/-- The Python `str(...)` forms used inside `Block.calculate_hash` for the
object-valued fields (their dataclass `repr`s, data-dependent strings). -/
structure PyRepr where
  strBlockHeader : Option BlockHeader → String
  strCoinbase : Option Transaction → String
  strTransaction : Transaction → String
  strStakeholderSignature : StakeholderSignature → String

structure Block where
  index : Nat
  previous_hash : List Nat
  timestamp : String
  block_header : Option BlockHeader
  coinbase_transaction : Option Transaction
  transactions : List Transaction
  stakeholders_signatures : Option (List StakeholderSignature)
  hash : List Nat
deriving Repr, DecidableEq

/-- Python truthiness of the `Optional[List[...]]` field
`stakeholders_signatures`: `None` and `[]` are falsy. -/
def pyTruthySigs : Option (List StakeholderSignature) → Bool
  | none => false
  | some l => !l.isEmpty

/-- The string actually fed to SHA-256 by `Block.calculate_hash`.  The
source's expression is one Python conditional expression, which parses as

`(index + prev.hex() + timestamp + str(header) + str(coinbase) + join(txs))
 if transactions else ((\x22\x22 + join(sigs)) if stakeholders_signatures else \x22\x22)`

— so when `transactions` is non-empty the stakeholder signatures never enter
the hash, and when it is empty every other field is dropped. -/
def calculate_hash_data (r : PyRepr) (b : Block) : String :=
  if !b.transactions.isEmpty then
    toString b.index ++ bytesHex b.previous_hash ++ b.timestamp ++
      r.strBlockHeader b.block_header ++ r.strCoinbase b.coinbase_transaction ++
      String.join (b.transactions.map r.strTransaction)
  else if pyTruthySigs b.stakeholders_signatures then
    "" ++
      String.join
        ((b.stakeholders_signatures.getD []).map r.strStakeholderSignature)
  else ""

/-- The hash input as the specification describes it: the concatenation of the
string forms of all the other fields — index, previous hash, timestamp,
header, coinbase, every transaction in order and every stakeholder signature
in order. -/
def calculate_hash_data_spec (r : PyRepr) (b : Block) : String :=
  toString b.index ++ bytesHex b.previous_hash ++ b.timestamp ++
    r.strBlockHeader b.block_header ++ r.strCoinbase b.coinbase_transaction ++
    String.join (b.transactions.map r.strTransaction) ++
    String.join
      ((b.stakeholders_signatures.getD []).map r.strStakeholderSignature)

/-- `Block.calculate_hash`: SHA-256 (abstracted as `sha256`) of the data
string. -/
def Block.calculate_hash (sha256 : String → List Nat) (r : PyRepr) (b : Block) :
    List Nat :=
  sha256 (calculate_hash_data r b)

/-- `Block.__init__`: the `hash` field is computed from the other fields on
construction (`self.hash = self.calculate_hash()`; `calculate_hash` does not
read `self.hash`). -/
def Block.make (sha256 : String → List Nat) (r : PyRepr) (index : Nat)
    (previous_hash : List Nat) (timestamp : String)
    (block_header : Option BlockHeader)
    (coinbase_transaction : Option Transaction)
    (transactions : List Transaction)
    (stakeholders_signatures : Option (List StakeholderSignature)) : Block :=
  let b : Block :=
    { index := index, previous_hash := previous_hash, timestamp := timestamp
      block_header := block_header, coinbase_transaction := coinbase_transaction
      transactions := transactions
      stakeholders_signatures := stakeholders_signatures, hash := [] }
  { b with hash := b.calculate_hash sha256 r }

/-! ## Wrapped blocks (`poa_messages/wrapped_block.py`) -/

structure WrappedBlock where
  id_m : String
  id_s : String
  public_key : Nat
  timestamp : String
  signature : Option Sig
  block_header : BlockHeader
  coinbase_transaction : Transaction
  transactions : List Transaction
  stakeholders_signatures : List StakeholderSignature
deriving Repr, DecidableEq

/-! ## The chain (`blockchain/blockchain.py`) -/

structure Blockchain where
  owner_name : String
  chain : List Block
  all_transactions : List Transaction
deriving Repr, DecidableEq

/-- `Blockchain.get_latest_block`; `none` models the `IndexError` of
`self.chain[-1]` on an empty chain (never reached: genesis is appended before
the protocol starts). -/
def get_latest_block (bc : Blockchain) : Option Block :=
  bc.chain.getLast?

/-- `Blockchain.add_block`: the block's transactions are aggregated into
`all_transactions` and the block appended. -/
def add_block (bc : Blockchain) (new_block : Block) : Blockchain :=
  { bc with
    all_transactions := bc.all_transactions ++ new_block.transactions
    chain := bc.chain ++ [new_block] }

/-- `Blockchain.append_genesis_block`.  `sha256hexTx`/`txNow` feed the genesis
transactions' constructor; `user_a_str`/`user_b_str` are the `str(...)` forms
of the two genesis `User` objects; `employees_names` is
`Simulation().get_employees_names()`.  `"0".encode()` is the byte string
`[48]`. -/
def append_genesis_block (sha256 : String → List Nat) (r : PyRepr)
    (sha256hexTx : String → String) (txNow user_a_str user_b_str : String)
    (employees_names : List String) (bc : Blockchain) : Blockchain :=
  let transactions := employees_names.map (fun employee_name =>
    Transaction.make sha256hexTx txNow user_a_str "1" user_b_str
      (some employee_name))
  add_block bc
    (Block.make sha256 r 0 [48] "1969-07-20 20:17:40" none none transactions
      none)

/-- `Blockchain.append_fitted_wrapped_block`.  The parent-hash comparison in
the source only emits a log warning — the block is constructed and appended
with `previous_hash := latest.hash` and `index := latest.index + 1`
regardless.  `now` is the construction-time `datetime.now()` string. -/
def append_fitted_wrapped_block (sha256 : String → List Nat) (r : PyRepr)
    (now : String) (bc : Blockchain) (wrapped_block : WrappedBlock) :
    Blockchain :=
  match get_latest_block bc with
  | none => bc -- unreachable: `self.chain[-1]` would raise before this point
  | some latest_block =>
      let block := Block.make sha256 r (latest_block.index + 1)
        latest_block.hash now (some wrapped_block.block_header)
        (some wrapped_block.coinbase_transaction) wrapped_block.transactions
        (some wrapped_block.stakeholders_signatures)
      add_block bc block

/-- Folds a sequence of `append_fitted_wrapped_block` calls (each paired with
its construction-time timestamp) over a chain. -/
def append_many (sha256 : String → List Nat) (r : PyRepr) (bc : Blockchain) :
    List (WrappedBlock × String) → Blockchain
  | [] => bc
  | (wb, now) :: rest =>
      append_many sha256 r (append_fitted_wrapped_block sha256 r now bc wb) rest

/-- The distinct `employee_name` values of a transaction list, as a
deterministic function of the list
(`set([tx.employee_name for tx in self.all_transactions])`; CPython's actual
set iteration order is a function of the inserted values and of the per-process
hash salt, which the forked node processes share — modelling it as
first-occurrence order preserves exactly its determinism). -/
def distinctNames (l : List (Option String)) : List (Option String) :=
  l.foldl (fun acc x => if x ∈ acc then acc else acc ++ [x]) []

/-- `Blockchain.follow_the_coin`.  `sample` abstracts
`random.seed(rand_source); random.sample(population, k=STAKEHOLDERS_NUM)` —
Python's Mersenne-Twister sampling, a deterministic function of the seed and
the population. -/
def follow_the_coin
    (sample : List Nat → List (Option String) → List (Option String))
    (bc : Blockchain) (rand_source : List Nat) : List (Option String) :=
  sample rand_source (distinctNames (bc.all_transactions.map (·.employee_name)))

/-! ## The node state machine (`employee/employee.py`)

Only the per-node state touched by `_collect_messages` and the stakeholder
procedures is carried; `model_id` / `model_id_s` are the node's
`self.model.id` and `self.model.get_id_s()` (the ML substrate is opaque). -/

structure EmployeeState where
  name : String
  private_key : Nat
  public_key : Nat
  model_id : String
  model_id_s : String
  blockchain : Blockchain
  pending_transactions : List Transaction
  training_declarations_book : TrainingDeclarationsBook
  stakeholder_signatures_book : StakeholderSignaturesBook
  protocol_restart_flag : Bool
deriving Repr, DecidableEq

/-- `Employee._get_pending_transactions_and_set_employee`: deep-copies the
pending pool and stamps each copy's `employee_name` with the node's name (the
pool itself is untouched — the map builds the copies). -/
def get_pending_transactions_and_set_employee (name : String)
    (pending : List Transaction) : List Transaction :=
  pending.map (fun t => { t with employee_name := some name })

/-- First-occurrence deduplication by Python `Transaction` equality (by
`id`). -/
def dedupById : List Transaction → List Transaction
  | [] => []
  | t :: rest =>
      t :: dedupById (rest.filter (fun u => !(u.eqPy t)))
termination_by l => l.length
decreasing_by
  simp only [List.length_cons]
  exact Nat.lt_succ_of_le (List.length_filter_le _ _)

/-- `Employee._remove_served_trans_from_pending_trans`:
`set(pending) - set(reg)` as a list — membership and duplicate collapse are by
`Transaction.__eq__`/`__hash__`, i.e. by `id`; CPython's hash-based iteration
order is not modelled (first-occurrence order of the pending pool is kept, the
same set-theoretic content). -/
def remove_served_trans_from_pending_trans (s : EmployeeState)
    (reg_trans : List Transaction) : EmployeeState :=
  { s with
    pending_transactions :=
      dedupById (s.pending_transactions.filter
        (fun t => !(reg_trans.any (fun u => t.eqPy u)))) }

/-- The external inputs of the Roy/wrapped-block path that come from outside
the core: hashing, pickling, wall clock, and the `str` forms and float
arithmetic of the coinbase transaction
(`CoinbaseUser.coinbase_reward` is floating point). -/
structure RoyEnv where
  getId : BlockHeader → String
  sha256 : String → List Nat
  pyrepr : PyRepr
  sha256hexTx : String → String
  now : String
  coinbase_user_str : String
  employee_user_str : String
  coinbase_amount_str : Nat → String
  pickleWB : WrappedBlock → List Nat

/-- `Employee._create_wrapped_block`.  Note the signature lookup keys:
`id_s = self.model.get_id_s()` (the node's *current* stage) and
`id_bh = block_header.get_id()`.  The coinbase transaction is
`CoinbaseUser(block_index).create_transaction(receiver=self.employee_user)`,
whose `employee_name` is the receiver's (the node's) name. -/
def create_wrapped_block (env : RoyEnv) (s : EmployeeState)
    (block_header : BlockHeader) : WrappedBlock :=
  let active_transactions :=
    get_pending_transactions_and_set_employee s.name s.pending_transactions
  let stakeholder_signatures :=
    get_signatures_for_block_header s.stakeholder_signatures_book s.model_id_s
      (env.getId block_header)
  let coinbase := Transaction.make env.sha256hexTx env.now env.coinbase_user_str
    (env.coinbase_amount_str block_header.block_index) env.employee_user_str
    (some s.name)
  { id_m := s.model_id, id_s := s.model_id_s, public_key := s.public_key
    timestamp := env.now, signature := none, block_header := block_header
    coinbase_transaction := coinbase, transactions := active_transactions
    stakeholders_signatures := stakeholder_signatures }

/-- `Employee._perform_roy_stakeholder_procedure`: build the wrapped block,
sign it (over its pickled bytes), broadcast it (no local state effect), append
it to the local chain, purge the served transactions from the pending pool and
raise the restart flag.  The stakeholder-signatures book is not touched.
Returns the new state and the broadcast wrapped block. -/
def perform_roy_stakeholder_procedure (env : RoyEnv) (s : EmployeeState)
    (block_header : BlockHeader) : EmployeeState × WrappedBlock :=
  let wb0 := create_wrapped_block env s block_header
  let wrapped_block :=
    { wb0 with signature := some (sign_message s.private_key (env.pickleWB wb0)) }
  let s1 := { s with
    blockchain :=
      append_fitted_wrapped_block env.sha256 env.pyrepr env.now s.blockchain
        wrapped_block }
  let s2 := remove_served_trans_from_pending_trans s1 wrapped_block.transactions
  ({ s2 with protocol_restart_flag := true }, wrapped_block)

/-- The `STAKEHOLDER_SIGNATURE` case of `Employee._collect_messages`.
`amIRoy` abstracts `_am_i_roy_stakeholder` (a `follow_the_coin` evaluation on
the header's hash).  The incoming signature is first added to the book with
the computed flag; if the node is Roy for the header and the count in the book
(read *after* the insert) reaches `STAKEHOLDERS_NUM - 1`, the Roy procedure
runs.  The returned boolean reports whether a Roy finalization was
performed. -/
def handle_stakeholder_signature (env : RoyEnv) (amIRoy : BlockHeader → Bool)
    (s : EmployeeState) (ss : StakeholderSignature) : EmployeeState × Bool :=
  let id_s := ss.block_header.id_s
  let id_bh := env.getId ss.block_header
  let is_roy := amIRoy ss.block_header
  let s1 := { s with
    stakeholder_signatures_book :=
      add_signature_to_book env.getId s.stakeholder_signatures_book ss
        (some is_roy) }
  if is_roy then
    let ss_for_roy_bh_num :=
      get_signatures_num s1.stakeholder_signatures_book id_s id_bh
    if ss_for_roy_bh_num ≥ STAKEHOLDERS_NUM - 1 then
      ((perform_roy_stakeholder_procedure env s1 ss.block_header).1, true)
    else (s1, false)
  else (s1, false)

/-- The `WRAPPED_BLOCK` case of `Employee._collect_messages`.  `verifyAlien`
abstracts `_verify_alien_message_soundness` (signature and
stakeholder-signature checks).  A block whose `block_index` does not exceed
the local tip's index is discarded with only a debug log. -/
def handle_wrapped_block (env : RoyEnv) (verifyAlien : WrappedBlock → Bool)
    (s : EmployeeState) (wb : WrappedBlock) : EmployeeState :=
  match get_latest_block s.blockchain with
  | none => s -- unreachable: genesis precedes the protocol
  | some latest =>
      if wb.block_header.block_index ≤ latest.index then s
      else if verifyAlien wb then
        let s1 := { s with protocol_restart_flag := true }
        let s2 := { s1 with
          stakeholder_signatures_book :=
            s1.stakeholder_signatures_book.close wb.id_s }
        let s3 := { s2 with
          blockchain :=
            append_fitted_wrapped_block env.sha256 env.pyrepr env.now
              s2.blockchain wb }
        remove_served_trans_from_pending_trans s3 wb.transactions
      else s

/-! ## Theorems -/

/-- **C9.** For every hashable-signable message `m`, `dumps_without_sig()` —
and hence `calculate_hash()` and `get_id()` — does not change `m`: after the
call the signature equals the value it had before and every other field is
untouched (the signature is only set to nil transiently during
serialization). -/
theorem C9_dumps_without_sig_is_pure (pickle : PoTMessage → List Nat)
    (sha256 : List Nat → List Nat) (m : PoTMessage) :
    (dumps_without_sig pickle m).1 = m ∧
    (m.calculate_hash pickle sha256).1 = m ∧
    (m.get_id pickle sha256).1 = m := by
  obtain ⟨a, b, c, d, e, f⟩ := m
  refine ⟨rfl, rfl, rfl⟩

/-- **C5 counterexample.** The claim quantifies over every prior value of
`m.signature`; but `sign` signs `pickle.dumps(self)` — which still contains
the old signature — while verification runs over `dumps_without_sig()`, whose
pickle has the signature field set to nil.  For a message that already
carries a signature, the freshly produced signature therefore does not
verify. -/
theorem C5_counterexample_resign_fails :
    (((⟨"m", "m:1", 7, "t", some ⟨7, [1]⟩, "p"⟩ : PoTMessage).sign pickleModel
          7).signature.map
        (fun sg =>
          verify_signature
            ((⟨"m", "m:1", 7, "t", some ⟨7, [1]⟩, "p"⟩ : PoTMessage).sign
                pickleModel 7).public_key
            (dumps_without_sig pickleModel
                ((⟨"m", "m:1", 7, "t", some ⟨7, [1]⟩, "p"⟩ : PoTMessage).sign
                  pickleModel 7)).2
            sg)) =
      some false := by
  decide

/-- **C5 (amended).** For every message `m` whose `signature` field is `None`
at the moment `sign` is called — the only state in which the protocol ever
signs — and every private key matching `m.public_key`, `sign` stores an
Ed25519 signature that verifies against `m.dumps_without_sig()`.  (When a
prior signature is present the round trip fails, because `sign` pickles the
message with that old signature while verification pickles it without one.) -/
theorem C5_sign_verify_roundtrip (pickle : PoTMessage → List Nat)
    (m : PoTMessage) (private_key : Nat) (hkey : m.public_key = private_key)
    (hsig : m.signature = none) :
    ∃ sg, (m.sign pickle private_key).signature = some sg ∧
      verify_signature m.public_key
        (dumps_without_sig pickle (m.sign pickle private_key)).2 sg = true := by
  refine ⟨sign_message private_key (pickle m), rfl, ?_⟩
  have hm : ({ m with signature := none } : PoTMessage) = m := by
    obtain ⟨a, b, c, d, e, f⟩ := m
    simp only at hsig
    rw [hsig]
  have h1 : (dumps_without_sig pickle (m.sign pickle private_key)).2 =
      pickle m := by
    show pickle { m.sign pickle private_key with signature := none } = pickle m
    have h2 : ({ m.sign pickle private_key with signature := none } :
        PoTMessage) = { m with signature := none } := by
      obtain ⟨a, b, c, d, e, f⟩ := m
      rfl
    rw [h2, hm]
  rw [h1]
  simp [verify_signature, sign_message, hkey]

/-- Witness for `C5_sign_verify_roundtrip` at a concrete unsigned message. -/
theorem C5_sign_verify_roundtrip_witness :
    (⟨"m", "m:1", 7, "t", none, "p"⟩ : PoTMessage).public_key = 7 ∧
    (⟨"m", "m:1", 7, "t", none, "p"⟩ : PoTMessage).signature = none ∧
    ∃ sg,
      ((⟨"m", "m:1", 7, "t", none, "p"⟩ : PoTMessage).sign pickleModel
            7).signature =
          some sg ∧
        verify_signature
            (⟨"m", "m:1", 7, "t", none, "p"⟩ : PoTMessage).public_key
            (dumps_without_sig pickleModel
                ((⟨"m", "m:1", 7, "t", none, "p"⟩ : PoTMessage).sign pickleModel
                  7)).2 sg =
          true :=
  ⟨rfl, rfl, C5_sign_verify_roundtrip pickleModel _ 7 rfl rfl⟩

/-- **C8.** A transaction's `id` is computed at construction as SHA-256 over
the string forms of sender, amount, receiver and timestamp and does not depend
on `employee_name`; `set_employee_name` (and the Roy node's direct stamping)
changes no other field, so the `id` — and with it `__eq__`-equality and
set membership — is stable across stamping. -/
theorem C8_transaction_id_stable (sha256hex : String → String)
    (now sender amount receiver : String) (en en' : Option String)
    (name2 : String) (l : List Transaction) :
    (Transaction.make sha256hex now sender amount receiver en).id =
      sha256hex (sender ++ amount ++ receiver ++ now) ∧
    (Transaction.make sha256hex now sender amount receiver en).id =
      (Transaction.make sha256hex now sender amount receiver en').id ∧
    ((Transaction.make sha256hex now sender amount receiver
          en).set_employee_name name2).id =
      (Transaction.make sha256hex now sender amount receiver en).id ∧
    ((Transaction.make sha256hex now sender amount receiver
          en).set_employee_name name2).sender = sender ∧
    ((Transaction.make sha256hex now sender amount receiver
          en).set_employee_name name2).amount = amount ∧
    ((Transaction.make sha256hex now sender amount receiver
          en).set_employee_name name2).receiver = receiver ∧
    ((Transaction.make sha256hex now sender amount receiver
          en).set_employee_name name2).timestamp = now ∧
    Transaction.eqPy
        ((Transaction.make sha256hex now sender amount receiver
            en).set_employee_name name2)
        (Transaction.make sha256hex now sender amount receiver en) = true ∧
    (l.any fun u =>
        u.eqPy
          ((Transaction.make sha256hex now sender amount receiver
              en).set_employee_name name2)) =
      (l.any fun u =>
        u.eqPy (Transaction.make sha256hex now sender amount receiver en)) ∧
    ∀ (name : String) (pending : List Transaction),
      (get_pending_transactions_and_set_employee name pending).map
          Transaction.id =
        pending.map Transaction.id := by
  refine ⟨rfl, rfl, rfl, rfl, rfl, rfl, rfl, ?_, ?_, ?_⟩
  · simp [Transaction.eqPy, Transaction.set_employee_name, Transaction.make]
  · simp [Transaction.eqPy, Transaction.set_employee_name, Transaction.make]
  · intro name pending
    simp [get_pending_transactions_and_set_employee]

/-- **C10.** The two books disagree on unknown-stage queries: the TD book's
`close` and `get_training_declarations` raise `KeyError` (here: `none`) while
`get_training_declarations_num` returns 0; the SS book's `close` returns
without error and without change, `get_signatures_for_block_header` returns
`[]`, `get_signatures_num` returns 0 and `is_open` returns `True`. -/
theorem C10_unknown_stage_queries (tdb : TrainingDeclarationsBook)
    (ssb : StakeholderSignaturesBook) (id_s id_bh : String)
    (htd : dictGet? tdb.book id_s = none)
    (hss : dictGet? ssb.book id_s = none) :
    tdb.close id_s = none ∧
    get_training_declarations tdb id_s = none ∧
    get_training_declarations_num tdb id_s = 0 ∧
    ssb.close id_s = ssb ∧
    get_signatures_for_block_header ssb id_s id_bh = [] ∧
    get_signatures_num ssb id_s id_bh = 0 ∧
    ssb.is_open id_s = true := by
  refine ⟨?_, ?_, ?_, ?_, ?_, ?_, ?_⟩ <;>
    simp [TrainingDeclarationsBook.close, get_training_declarations,
      get_training_declarations_num, StakeholderSignaturesBook.close,
      get_signatures_for_block_header, get_signatures_num,
      StakeholderSignaturesBook.is_open, htd, hss]

/-- Witness for `C10_unknown_stage_queries` on freshly initialized books. -/
theorem C10_unknown_stage_queries_witness :
    dictGet? (TrainingDeclarationsBook.mk "n" []).book "m:1" = none ∧
    dictGet? (StakeholderSignaturesBook.mk "n" []).book "m:1" = none ∧
    ((TrainingDeclarationsBook.mk "n" []).close "m:1" = none ∧
      get_training_declarations (TrainingDeclarationsBook.mk "n" []) "m:1" =
        none ∧
      get_training_declarations_num (TrainingDeclarationsBook.mk "n" [])
          "m:1" = 0 ∧
      (StakeholderSignaturesBook.mk "n" []).close "m:1" =
        StakeholderSignaturesBook.mk "n" [] ∧
      get_signatures_for_block_header (StakeholderSignaturesBook.mk "n" [])
          "m:1" "bh" = [] ∧
      get_signatures_num (StakeholderSignaturesBook.mk "n" []) "m:1" "bh" =
        0 ∧
      (StakeholderSignaturesBook.mk "n" []).is_open "m:1" = true) :=
  ⟨rfl, rfl, C10_unknown_stage_queries _ _ "m:1" "bh" rfl rfl⟩

/-- **C1.** `follow_the_coin(rand_source)` is a deterministic function of
`rand_source` and the eligibility set (the distinct `employee_name` values in
the chain's `all_transactions`): two nodes whose chains hold the same
`all_transactions` get, for the same `rand_source`, the identical ordered list
of `STAKEHOLDERS_NUM` names, including the same last (Roy) name.  `sample`
ranges over deterministic seeded samplers (Python's `random.seed`/`
random.sample` pair); the sampler contract is that it returns
`STAKEHOLDERS_NUM` draws whenever the population suffices. -/
theorem C1_follow_the_coin_deterministic
    (sample : List Nat → List (Option String) → List (Option String))
    (hsample : ∀ rand pop, STAKEHOLDERS_NUM ≤ pop.length →
      (sample rand pop).length = STAKEHOLDERS_NUM)
    (bcA bcB : Blockchain) (htx : bcA.all_transactions = bcB.all_transactions)
    (rand_source : List Nat)
    (hpool : STAKEHOLDERS_NUM ≤
      (distinctNames (bcA.all_transactions.map (·.employee_name))).length) :
    follow_the_coin sample bcA rand_source =
      follow_the_coin sample bcB rand_source ∧
    (follow_the_coin sample bcA rand_source).length = STAKEHOLDERS_NUM ∧
    (follow_the_coin sample bcA rand_source).getLast? =
      (follow_the_coin sample bcB rand_source).getLast? := by
  have he : follow_the_coin sample bcA rand_source =
      follow_the_coin sample bcB rand_source := by
    unfold follow_the_coin
    rw [htx]
  exact ⟨he, hsample _ _ hpool, by rw [he]⟩

/-- Witness for `C1_follow_the_coin_deterministic`: the take-first sampler on
a chain whose transactions carry three distinct employee names. -/
theorem C1_follow_the_coin_deterministic_witness :
    STAKEHOLDERS_NUM ≤
      (distinctNames
        ((Blockchain.mk "n" []
              [⟨"a", "1", "b", some "E1", "t", "i1"⟩,
                ⟨"a", "1", "b", some "E2", "t", "i2"⟩,
                ⟨"a", "1", "b", some "E3", "t", "i3"⟩]).all_transactions.map
          (·.employee_name))).length ∧
    (follow_the_coin (fun _ pop => pop.take STAKEHOLDERS_NUM)
        (Blockchain.mk "n" []
          [⟨"a", "1", "b", some "E1", "t", "i1"⟩,
            ⟨"a", "1", "b", some "E2", "t", "i2"⟩,
            ⟨"a", "1", "b", some "E3", "t", "i3"⟩]) [7]).length =
      STAKEHOLDERS_NUM :=
  ⟨by decide,
    (C1_follow_the_coin_deterministic (fun _ pop => pop.take STAKEHOLDERS_NUM)
      (fun _ pop h => by
        simpa [List.length_take] using Nat.min_eq_left h)
      _ _ rfl [7] (by decide)).2.1⟩

/-- If a key already maps to the written value, `dictSet` is the identity. -/
theorem dictSet_get_self {α : Type} (d : List (String × α)) (k : String)
    (v : α) (h : dictGet? d k = some v) : dictSet d k v = d := by
  induction d with
  | nil => simp [dictGet?] at h
  | cons p rest ih =>
      obtain ⟨k₀, v₀⟩ := p
      by_cases hk : k₀ = k
      · subst hk
        simp [dictGet?, List.find?] at h
        simp [dictSet, h]
      · have hbe : (k₀ == k) = false := beq_eq_false_iff_ne.mpr hk
        simp only [dictGet?, List.find?, hbe] at h
        simp [dictSet, hbe, ih h]

/-- **C6 counterexample.** Adding a stakeholder signature whose `id_bh` is
unseen to a *closed* stage is not a no-op: the source installs the fresh empty
per-header entry before performing the `open` check, so the book state
changes. -/
theorem C6_counterexample_closed_ss_add_changes_book :
    add_signature_to_book (fun _ => "h")
        (StakeholderSignaturesBook.mk "n" [("s", ⟨false, []⟩)])
        ⟨⟨"m", "s", 0, "t", 0, [], 0, [], [], none⟩, "h", 0, ⟨0, []⟩⟩ none ≠
      StakeholderSignaturesBook.mk "n" [("s", ⟨false, []⟩)] := by
  decide

/-- **C6 (amended).** An add targeting a closed stage never appends the
declaration/signature.  For the TD book it is a full no-op.  For the SS book
the signature is dropped and every signature count is unchanged, and the book
itself is unchanged whenever the header id is already present under the
stage; but when the header id is unseen, a fresh empty per-header entry
`{sigs: [], roy}` is installed (the source creates it before the `open`
check). -/
theorem C6_closed_stage_add (getId : BlockHeader → String)
    (tdb : TrainingDeclarationsBook) (td : TrainingDeclaration)
    (ssb : StakeholderSignaturesBook) (ss : StakeholderSignature)
    (roy : Option Bool) (st : TDStage)
    (hst : dictGet? tdb.book td.id_s = some st)
    (hstc : st.open_flag = false) (sst : SSStage)
    (hsst : dictGet? ssb.book ss.block_header.id_s = some sst)
    (hsstc : sst.open_flag = false) :
    add_training_declaration_to_book tdb td = tdb ∧
    (dictMem sst.sh_info (getId ss.block_header) = true →
      add_signature_to_book getId ssb ss roy = ssb) ∧
    (dictMem sst.sh_info (getId ss.block_header) = false →
      add_signature_to_book getId ssb ss roy =
        { ssb with
          book := dictSet ssb.book ss.block_header.id_s
            { sst with
              sh_info :=
                dictSet sst.sh_info (getId ss.block_header) ⟨[], roy⟩ } }) ∧
    (∀ a b : String,
      get_signatures_num (add_signature_to_book getId ssb ss roy) a b =
        get_signatures_num ssb a b) := by
  have hmemtd : dictMem tdb.book td.id_s = true := by
    simp [dictMem, hst]
  have hmemss : dictMem ssb.book ss.block_header.id_s = true := by
    simp [dictMem, hsst]
  have htd : add_training_declaration_to_book tdb td = tdb := by
    unfold add_training_declaration_to_book
    simp only [hmemtd, if_true, hst, hstc, if_false]
  have hpres : dictMem sst.sh_info (getId ss.block_header) = true →
      add_signature_to_book getId ssb ss roy = ssb := by
    intro hmembh
    unfold add_signature_to_book
    simp only [hmemss, if_true, hsst, hmembh, if_true, hsstc, if_false]
    rw [dictSet_get_self _ _ _ hsst]
  have habs : dictMem sst.sh_info (getId ss.block_header) = false →
      add_signature_to_book getId ssb ss roy =
        { ssb with
          book := dictSet ssb.book ss.block_header.id_s
            { sst with
              sh_info :=
                dictSet sst.sh_info (getId ss.block_header) ⟨[], roy⟩ } } := by
    intro hmembh
    unfold add_signature_to_book
    simp only [hmemss, if_true, hsst, hmembh, Bool.false_eq_true, if_false,
      hsstc, if_false]
  refine ⟨htd, hpres, habs, ?_⟩
  intro a b
  cases hmembh : dictMem sst.sh_info (getId ss.block_header) with
  | true => rw [hpres hmembh]
  | false =>
      rw [habs hmembh]
      have hnone : dictGet? sst.sh_info (getId ss.block_header) = none := by
        rcases hg : dictGet? sst.sh_info (getId ss.block_header) with _ | e
        · rfl
        · rw [dictMem, hg] at hmembh
          simp at hmembh
      by_cases ha : a = ss.block_header.id_s
      · subst ha
        by_cases hb : b = getId ss.block_header
        · subst hb
          simp [get_signatures_num, dictGet?_dictSet_self, hsst, hnone]
        · simp [get_signatures_num, dictGet?_dictSet_self, hsst,
            dictGet?_dictSet_ne _ _ _ _ hb]
      · simp [get_signatures_num, dictGet?_dictSet_ne _ _ _ _ ha]

/-- Witness for `C6_closed_stage_add` on a closed single-stage SS book whose
per-header entry already exists, and a closed single-stage TD book. -/
theorem C6_closed_stage_add_witness :
    dictGet?
        (TrainingDeclarationsBook.mk "n" [("s", ⟨false, []⟩)]).book
        (⟨"m", "s", 0, "t", 0, ⟨0, []⟩, "h", none⟩ :
          TrainingDeclaration).id_s =
      some ⟨false, []⟩ ∧
    dictGet?
        (StakeholderSignaturesBook.mk "n"
          [("s", ⟨false, [("h", ⟨[], none⟩)]⟩)]).book
        (⟨⟨"m", "s", 0, "t", 0, [], 0, [], [], none⟩, "h", 0, ⟨0, []⟩⟩ :
          StakeholderSignature).block_header.id_s =
      some ⟨false, [("h", ⟨[], none⟩)]⟩ ∧
    add_training_declaration_to_book
        (TrainingDeclarationsBook.mk "n" [("s", ⟨false, []⟩)])
        ⟨"m", "s", 0, "t", 0, ⟨0, []⟩, "h", none⟩ =
      TrainingDeclarationsBook.mk "n" [("s", ⟨false, []⟩)] ∧
    add_signature_to_book (fun _ => "h")
        (StakeholderSignaturesBook.mk "n"
          [("s", ⟨false, [("h", ⟨[], none⟩)]⟩)])
        ⟨⟨"m", "s", 0, "t", 0, [], 0, [], [], none⟩, "h", 0, ⟨0, []⟩⟩ none =
      StakeholderSignaturesBook.mk "n" [("s", ⟨false, [("h", ⟨[], none⟩)]⟩)] := by
  have h := C6_closed_stage_add (fun _ => "h")
    (TrainingDeclarationsBook.mk "n" [("s", ⟨false, []⟩)])
    ⟨"m", "s", 0, "t", 0, ⟨0, []⟩, "h", none⟩
    (StakeholderSignaturesBook.mk "n" [("s", ⟨false, [("h", ⟨[], none⟩)]⟩)])
    ⟨⟨"m", "s", 0, "t", 0, [], 0, [], [], none⟩, "h", 0, ⟨0, []⟩⟩ none
    ⟨false, []⟩ rfl rfl ⟨false, [("h", ⟨[], none⟩)]⟩ rfl rfl
  exact ⟨rfl, rfl, h.1, h.2.1 (by decide)⟩

/-- **C7.** An inbound wrapped block whose `block_index` does not exceed the
local tip's index is dropped with no state change at all: the chain, the
pending pool, both books and the restart flag are untouched. -/
theorem C7_stale_wrapped_block_dropped (env : RoyEnv)
    (verifyAlien : WrappedBlock → Bool) (s : EmployeeState)
    (wb : WrappedBlock) (latest : Block)
    (hlatest : get_latest_block s.blockchain = some latest)
    (hidx : wb.block_header.block_index ≤ latest.index) :
    handle_wrapped_block env verifyAlien s wb = s := by
  unfold handle_wrapped_block
  rw [hlatest]
  simp [hidx]

/-- Witness for `C7_stale_wrapped_block_dropped`: a tip at index 0 and a
wrapped block also carrying index 0. -/
theorem C7_stale_wrapped_block_dropped_witness :
    get_latest_block
        (EmployeeState.mk "n" 1 1 "m" "s"
          (Blockchain.mk "n" [⟨0, [48], "t", none, none, [], none, [0]⟩] [])
          [] (TrainingDeclarationsBook.mk "n" [])
          (StakeholderSignaturesBook.mk "n" []) false).blockchain =
      some ⟨0, [48], "t", none, none, [], none, [0]⟩ ∧
    (⟨"m", "s", 1, "t", none, ⟨"m", "s", 1, "t", 0, [], 0, [], [], none⟩,
          ⟨"c", "r", "e", some "n", "t", "i"⟩, [],
          []⟩ : WrappedBlock).block_header.block_index ≤
      (⟨0, [48], "t", none, none, [], none, [0]⟩ : Block).index ∧
    handle_wrapped_block
        ⟨fun _ => "h", fun _ => [], ⟨fun _ => "", fun _ => "", fun _ => "",
            fun _ => ""⟩, fun x => x, "t", "cu", "eu", fun _ => "r",
          fun _ => []⟩
        (fun _ => true)
        (EmployeeState.mk "n" 1 1 "m" "s"
          (Blockchain.mk "n" [⟨0, [48], "t", none, none, [], none, [0]⟩] [])
          [] (TrainingDeclarationsBook.mk "n" [])
          (StakeholderSignaturesBook.mk "n" []) false)
        ⟨"m", "s", 1, "t", none, ⟨"m", "s", 1, "t", 0, [], 0, [], [], none⟩,
          ⟨"c", "r", "e", some "n", "t", "i"⟩, [], []⟩ =
      EmployeeState.mk "n" 1 1 "m" "s"
        (Blockchain.mk "n" [⟨0, [48], "t", none, none, [], none, [0]⟩] [])
        [] (TrainingDeclarationsBook.mk "n" [])
        (StakeholderSignaturesBook.mk "n" []) false :=
  ⟨rfl, by decide,
    C7_stale_wrapped_block_dropped _ _ _ _
      ⟨0, [48], "t", none, none, [], none, [0]⟩ rfl (by decide)⟩

/-- The adjacent-pair chain-link relation of the invariant: the later block
points at the earlier one's hash and carries the successor index. -/
def chainR (b0 b1 : Block) : Prop :=
  b1.previous_hash = b0.hash ∧ b1.index = b0.index + 1

/-- One `append_fitted_wrapped_block` preserves the link invariant (and keeps
the chain non-empty), for any wrapped block — the parent-hash mismatch is only
logged, yet the constructed block always points at the local tip. -/
theorem append_fitted_preserves_link (sha256 : String → List Nat) (r : PyRepr)
    (now : String) (bc : Blockchain) (wb : WrappedBlock) (hne : bc.chain ≠ [])
    (h : List.Chain' chainR bc.chain) :
    List.Chain' chainR (append_fitted_wrapped_block sha256 r now bc wb).chain ∧
      (append_fitted_wrapped_block sha256 r now bc wb).chain ≠ [] := by
  obtain ⟨latest, hlatest⟩ :
      ∃ latest, bc.chain.getLast? = some latest := by
    cases hc : bc.chain.getLast? with
    | some x => exact ⟨x, rfl⟩
    | none => exact absurd (List.getLast?_eq_none_iff.1 hc) hne
  constructor
  · unfold append_fitted_wrapped_block get_latest_block
    rw [hlatest]
    simp only [add_block]
    rw [List.chain'_append]
    refine ⟨h, List.chain'_singleton _, ?_⟩
    intro x hx y hy
    rw [hlatest, Option.mem_def, Option.some_inj] at hx
    simp only [List.head?_cons, Option.mem_def, Option.some_inj] at hy
    subst hx
    subst hy
    exact ⟨rfl, rfl⟩
  · unfold append_fitted_wrapped_block get_latest_block
    rw [hlatest]
    simp [add_block]

/-- Any sequence of appends preserves the link invariant. -/
theorem append_many_preserves_link (sha256 : String → List Nat) (r : PyRepr)
    (apps : List (WrappedBlock × String)) (bc : Blockchain)
    (hne : bc.chain ≠ []) (h : List.Chain' chainR bc.chain) :
    List.Chain' chainR (append_many sha256 r bc apps).chain ∧
      (append_many sha256 r bc apps).chain ≠ [] := by
  induction apps generalizing bc with
  | nil => exact ⟨h, hne⟩
  | cons p rest ih =>
      obtain ⟨wb, now⟩ := p
      obtain ⟨h1, h2⟩ := append_fitted_preserves_link sha256 r now bc wb hne h
      exact ih _ h2 h1

/-- **C4.** For every local chain built by `append_genesis_block` followed by
any sequence of `append_fitted_wrapped_block` calls, and every `i ≥ 1`:
`chain[i].previous_hash = chain[i-1].hash` and
`chain[i].index = chain[i-1].index + 1` — even when an appended wrapped
block's `parent_block_hash` differs from the local tip's hash (the fork is
only logged and the block is appended with `previous_hash` set to the tip's
hash). -/
theorem C4_chain_link_invariant (sha256 : String → List Nat) (r : PyRepr)
    (sha256hexTx : String → String) (txNow user_a_str user_b_str : String)
    (employees_names : List String) (owner : String)
    (apps : List (WrappedBlock × String)) (i : Nat)
    (h : i + 1 <
      (append_many sha256 r
        (append_genesis_block sha256 r sha256hexTx txNow user_a_str user_b_str
          employees_names (Blockchain.mk owner [] [])) apps).chain.length) :
    ((append_many sha256 r
        (append_genesis_block sha256 r sha256hexTx txNow user_a_str user_b_str
          employees_names (Blockchain.mk owner [] [])) apps).chain.get
        ⟨i + 1, h⟩).previous_hash =
      ((append_many sha256 r
        (append_genesis_block sha256 r sha256hexTx txNow user_a_str user_b_str
          employees_names (Blockchain.mk owner [] [])) apps).chain.get
        ⟨i, Nat.lt_of_succ_lt h⟩).hash ∧
    ((append_many sha256 r
        (append_genesis_block sha256 r sha256hexTx txNow user_a_str user_b_str
          employees_names (Blockchain.mk owner [] [])) apps).chain.get
        ⟨i + 1, h⟩).index =
      ((append_many sha256 r
        (append_genesis_block sha256 r sha256hexTx txNow user_a_str user_b_str
          employees_names (Blockchain.mk owner [] [])) apps).chain.get
        ⟨i, Nat.lt_of_succ_lt h⟩).index + 1 := by
  have hbase :
      (append_genesis_block sha256 r sha256hexTx txNow user_a_str user_b_str
        employees_names (Blockchain.mk owner [] [])).chain ≠ [] := by
    simp [append_genesis_block, add_block]
  have hchain :
      List.Chain' chainR
        (append_genesis_block sha256 r sha256hexTx txNow user_a_str user_b_str
          employees_names (Blockchain.mk owner [] [])).chain := by
    simp [append_genesis_block, add_block]
  obtain ⟨hall, -⟩ :=
    append_many_preserves_link sha256 r apps _ hbase hchain
  have := List.chain'_iff_get.1 hall i (by omega)
  exact this

/-- Witness for `C4_chain_link_invariant`: genesis plus one appended wrapped
block, checked at `i = 0`. -/
theorem C4_chain_link_invariant_witness :
    (0 : Nat) + 1 <
      (append_many (fun _ => [0])
        ⟨fun _ => "", fun _ => "", fun _ => "", fun _ => ""⟩
        (append_genesis_block (fun _ => [0])
          ⟨fun _ => "", fun _ => "", fun _ => "", fun _ => ""⟩
          (fun d => d) "t" "ua" "ub" ["E1"] (Blockchain.mk "n" [] []))
        [(⟨"m", "s", 1, "t", none,
            ⟨"m", "s", 1, "t", 0, [9], 1, [], [], none⟩,
            ⟨"c", "r", "e", some "n", "t", "i"⟩, [], []⟩, "t2")]).chain.length ∧
    ∀ (h : (0 : Nat) + 1 <
      (append_many (fun _ => [0])
        ⟨fun _ => "", fun _ => "", fun _ => "", fun _ => ""⟩
        (append_genesis_block (fun _ => [0])
          ⟨fun _ => "", fun _ => "", fun _ => "", fun _ => ""⟩
          (fun d => d) "t" "ua" "ub" ["E1"] (Blockchain.mk "n" [] []))
        [(⟨"m", "s", 1, "t", none,
            ⟨"m", "s", 1, "t", 0, [9], 1, [], [], none⟩,
            ⟨"c", "r", "e", some "n", "t", "i"⟩, [], []⟩, "t2")]).chain.length),
      ((append_many (fun _ => [0])
          ⟨fun _ => "", fun _ => "", fun _ => "", fun _ => ""⟩
          (append_genesis_block (fun _ => [0])
            ⟨fun _ => "", fun _ => "", fun _ => "", fun _ => ""⟩
            (fun d => d) "t" "ua" "ub" ["E1"] (Blockchain.mk "n" [] []))
          [(⟨"m", "s", 1, "t", none,
              ⟨"m", "s", 1, "t", 0, [9], 1, [], [], none⟩,
              ⟨"c", "r", "e", some "n", "t", "i"⟩, [], []⟩, "t2")]).chain.get
          ⟨0 + 1, h⟩).previous_hash =
        ((append_many (fun _ => [0])
          ⟨fun _ => "", fun _ => "", fun _ => "", fun _ => ""⟩
          (append_genesis_block (fun _ => [0])
            ⟨fun _ => "", fun _ => "", fun _ => "", fun _ => ""⟩
            (fun d => d) "t" "ua" "ub" ["E1"] (Blockchain.mk "n" [] []))
          [(⟨"m", "s", 1, "t", none,
              ⟨"m", "s", 1, "t", 0, [9], 1, [], [], none⟩,
              ⟨"c", "r", "e", some "n", "t", "i"⟩, [], []⟩, "t2")]).chain.get
          ⟨0, Nat.lt_of_succ_lt h⟩).hash := by
  refine ⟨by decide, fun h => ?_⟩
  exact (C4_chain_link_invariant (fun _ => [0])
    ⟨fun _ => "", fun _ => "", fun _ => "", fun _ => ""⟩ (fun d => d) "t" "ua"
    "ub" ["E1"] "n"
    [(⟨"m", "s", 1, "t", none, ⟨"m", "s", 1, "t", 0, [9], 1, [], [], none⟩,
        ⟨"c", "r", "e", some "n", "t", "i"⟩, [], []⟩, "t2")] 0 h).1

/-- **C2 counterexample.** A Roy node collecting signatures for its header:
the second signature (count `STAKEHOLDERS_NUM - 1 = 2`) triggers the
finalization — but afterwards the SS-book entry for the stage is still open
(`_perform_roy_stakeholder_procedure` never closes it; only acceptance of an
*alien* wrapped block does, and the broadcaster never echoes the Roy node's
own block back to it), and a third signature for the same stage is appended
and triggers a second Roy finalization. -/
theorem C2_counterexample_refires_and_book_open :
    (handle_stakeholder_signature
        ⟨fun _ => "h", fun _ => [0],
          ⟨fun _ => "", fun _ => "", fun _ => "", fun _ => ""⟩, fun x => x,
          "t", "cu", "eu", fun _ => "r", fun _ => []⟩
        (fun _ => true)
        ⟨"n", 1, 1, "m", "s",
          ⟨"n", [⟨0, [48], "g", none, none, [], none, [7]⟩], []⟩, [],
          ⟨"n", []⟩, ⟨"n", []⟩, false⟩
        ⟨⟨"m", "s", 1, "t", 0, [], 1, [], [], none⟩, "h", 1, ⟨1, []⟩⟩).2 =
      false ∧
    (handle_stakeholder_signature
        ⟨fun _ => "h", fun _ => [0],
          ⟨fun _ => "", fun _ => "", fun _ => "", fun _ => ""⟩, fun x => x,
          "t", "cu", "eu", fun _ => "r", fun _ => []⟩
        (fun _ => true)
        (handle_stakeholder_signature
          ⟨fun _ => "h", fun _ => [0],
            ⟨fun _ => "", fun _ => "", fun _ => "", fun _ => ""⟩, fun x => x,
            "t", "cu", "eu", fun _ => "r", fun _ => []⟩
          (fun _ => true)
          ⟨"n", 1, 1, "m", "s",
            ⟨"n", [⟨0, [48], "g", none, none, [], none, [7]⟩], []⟩, [],
            ⟨"n", []⟩, ⟨"n", []⟩, false⟩
          ⟨⟨"m", "s", 1, "t", 0, [], 1, [], [], none⟩, "h", 1, ⟨1, []⟩⟩).1
        ⟨⟨"m", "s", 1, "t", 0, [], 1, [], [], none⟩, "h", 2, ⟨2, []⟩⟩).2 =
      true ∧
    ((handle_stakeholder_signature
        ⟨fun _ => "h", fun _ => [0],
          ⟨fun _ => "", fun _ => "", fun _ => "", fun _ => ""⟩, fun x => x,
          "t", "cu", "eu", fun _ => "r", fun _ => []⟩
        (fun _ => true)
        (handle_stakeholder_signature
          ⟨fun _ => "h", fun _ => [0],
            ⟨fun _ => "", fun _ => "", fun _ => "", fun _ => ""⟩, fun x => x,
            "t", "cu", "eu", fun _ => "r", fun _ => []⟩
          (fun _ => true)
          ⟨"n", 1, 1, "m", "s",
            ⟨"n", [⟨0, [48], "g", none, none, [], none, [7]⟩], []⟩, [],
            ⟨"n", []⟩, ⟨"n", []⟩, false⟩
          ⟨⟨"m", "s", 1, "t", 0, [], 1, [], [], none⟩, "h", 1, ⟨1, []⟩⟩).1
        ⟨⟨"m", "s", 1, "t", 0, [], 1, [], [],
          none⟩, "h", 2, ⟨2, []⟩⟩).1.stakeholder_signatures_book.is_open
        "s") = true ∧
    (handle_stakeholder_signature
        ⟨fun _ => "h", fun _ => [0],
          ⟨fun _ => "", fun _ => "", fun _ => "", fun _ => ""⟩, fun x => x,
          "t", "cu", "eu", fun _ => "r", fun _ => []⟩
        (fun _ => true)
        (handle_stakeholder_signature
          ⟨fun _ => "h", fun _ => [0],
            ⟨fun _ => "", fun _ => "", fun _ => "", fun _ => ""⟩, fun x => x,
            "t", "cu", "eu", fun _ => "r", fun _ => []⟩
          (fun _ => true)
          (handle_stakeholder_signature
            ⟨fun _ => "h", fun _ => [0],
              ⟨fun _ => "", fun _ => "", fun _ => "", fun _ => ""⟩, fun x => x,
              "t", "cu", "eu", fun _ => "r", fun _ => []⟩
            (fun _ => true)
            ⟨"n", 1, 1, "m", "s",
              ⟨"n", [⟨0, [48], "g", none, none, [], none, [7]⟩], []⟩, [],
              ⟨"n", []⟩, ⟨"n", []⟩, false⟩
            ⟨⟨"m", "s", 1, "t", 0, [], 1, [], [], none⟩, "h", 1, ⟨1, []⟩⟩).1
          ⟨⟨"m", "s", 1, "t", 0, [], 1, [], [], none⟩, "h", 2, ⟨2, []⟩⟩).1
        ⟨⟨"m", "s", 1, "t", 0, [], 1, [], [], none⟩, "h", 3, ⟨3, []⟩⟩).2 =
      true := by
  decide

/-- **C2 (amended).** On an incoming stakeholder signature the Roy node runs
the finalization procedure exactly when it is Roy for the header and the
signature count in its SS book for `(id_s, id_bh)`, read *after* inserting
the incoming signature, is `≥ STAKEHOLDERS_NUM − 1` (its own signature is
never in that book) — so the first finalization happens when the count
reaches `STAKEHOLDERS_NUM − 1`.  The finalization itself leaves the SS book
exactly as the insert left it: the stage entry is *not* closed (closure
happens only on acceptance of an alien wrapped block), so on the Roy node a
later signature for the stage is appended and re-triggers a finalization. -/
theorem C2_roy_trigger_characterization (env : RoyEnv)
    (amIRoy : BlockHeader → Bool) (s : EmployeeState)
    (ss : StakeholderSignature) :
    ((handle_stakeholder_signature env amIRoy s ss).2 = true ↔
      amIRoy ss.block_header = true ∧
      STAKEHOLDERS_NUM - 1 ≤
        get_signatures_num
          (add_signature_to_book env.getId s.stakeholder_signatures_book ss
            (some (amIRoy ss.block_header)))
          ss.block_header.id_s (env.getId ss.block_header)) ∧
    (handle_stakeholder_signature env amIRoy s
          ss).1.stakeholder_signatures_book =
      add_signature_to_book env.getId s.stakeholder_signatures_book ss
        (some (amIRoy ss.block_header)) := by
  have hbook : ∀ (s' : EmployeeState) (bh : BlockHeader),
      (perform_roy_stakeholder_procedure env s'
          bh).1.stakeholder_signatures_book =
        s'.stakeholder_signatures_book := by
    intro s' bh
    rfl
  unfold handle_stakeholder_signature
  cases hroy : amIRoy ss.block_header with
  | false => simp
  | true =>
      by_cases hnum : STAKEHOLDERS_NUM - 1 ≤
          get_signatures_num
            (add_signature_to_book env.getId s.stakeholder_signatures_book ss
              (some true))
            ss.block_header.id_s (env.getId ss.block_header)
      · refine ⟨by simp [hnum], ?_⟩
        simp only [if_true, ge_iff_le, hnum, if_pos]
        exact hbook _ _
      · refine ⟨by simp [hnum], ?_⟩
        simp only [if_true, ge_iff_le, hnum, if_neg, not_false_iff]

/-- **C3 (code slip).** `Block.calculate_hash` as written does *not* hash the
concatenation of all fields: the Python conditional expression's precedence
makes the whole concatenation one branch.  Evaluated on concrete blocks:
two blocks differing only in their stakeholder signatures hash the same data
(and hence the same digest, for every hash function) when transactions are
non-empty, and a block with an empty transaction list hashes only its
signature strings — while the spec-described data string distinguishes both
cases. -/
theorem C3_code_bug_hash_drops_fields :
    calculate_hash_data
        ⟨fun _ => "H", fun _ => "C", fun t => t.id, fun sg => sg.block_header_id⟩
        ⟨1, [0], "ts", some ⟨"m", "s", 0, "t", 0, [], 0, [], [], none⟩, none,
          [⟨"a", "1", "b", none, "t", "id0"⟩],
          some [⟨⟨"m", "s", 0, "t", 0, [], 0, [], [], none⟩, "h1", 0, ⟨0, []⟩⟩],
          []⟩ =
      calculate_hash_data
        ⟨fun _ => "H", fun _ => "C", fun t => t.id, fun sg => sg.block_header_id⟩
        ⟨1, [0], "ts", some ⟨"m", "s", 0, "t", 0, [], 0, [], [], none⟩, none,
          [⟨"a", "1", "b", none, "t", "id0"⟩],
          some [⟨⟨"m", "s", 0, "t", 0, [], 0, [], [], none⟩, "h2", 0, ⟨0, []⟩⟩],
          []⟩ ∧
    calculate_hash_data_spec
        ⟨fun _ => "H", fun _ => "C", fun t => t.id, fun sg => sg.block_header_id⟩
        ⟨1, [0], "ts", some ⟨"m", "s", 0, "t", 0, [], 0, [], [], none⟩, none,
          [⟨"a", "1", "b", none, "t", "id0"⟩],
          some [⟨⟨"m", "s", 0, "t", 0, [], 0, [], [], none⟩, "h1", 0, ⟨0, []⟩⟩],
          []⟩ ≠
      calculate_hash_data_spec
        ⟨fun _ => "H", fun _ => "C", fun t => t.id, fun sg => sg.block_header_id⟩
        ⟨1, [0], "ts", some ⟨"m", "s", 0, "t", 0, [], 0, [], [], none⟩, none,
          [⟨"a", "1", "b", none, "t", "id0"⟩],
          some [⟨⟨"m", "s", 0, "t", 0, [], 0, [], [], none⟩, "h2", 0, ⟨0, []⟩⟩],
          []⟩ ∧
    calculate_hash_data
        ⟨fun _ => "H", fun _ => "C", fun t => t.id, fun sg => sg.block_header_id⟩
        ⟨1, [0], "ts", some ⟨"m", "s", 0, "t", 0, [], 0, [], [], none⟩, none,
          [],
          some [⟨⟨"m", "s", 0, "t", 0, [], 0, [], [], none⟩, "h1", 0, ⟨0, []⟩⟩],
          []⟩ =
      "h1" ∧
    calculate_hash_data_spec
        ⟨fun _ => "H", fun _ => "C", fun t => t.id, fun sg => sg.block_header_id⟩
        ⟨1, [0], "ts", some ⟨"m", "s", 0, "t", 0, [], 0, [], [], none⟩, none,
          [],
          some [⟨⟨"m", "s", 0, "t", 0, [], 0, [], [], none⟩, "h1", 0, ⟨0, []⟩⟩],
          []⟩ ≠
      "h1" ∧
    ∀ sha256 : String → List Nat,
      Block.calculate_hash sha256
          ⟨fun _ => "H", fun _ => "C", fun t => t.id,
            fun sg => sg.block_header_id⟩
          ⟨1, [0], "ts", some ⟨"m", "s", 0, "t", 0, [], 0, [], [], none⟩, none,
            [⟨"a", "1", "b", none, "t", "id0"⟩],
            some [⟨⟨"m", "s", 0, "t", 0, [], 0, [], [], none⟩, "h1", 0,
              ⟨0, []⟩⟩], []⟩ =
        Block.calculate_hash sha256
          ⟨fun _ => "H", fun _ => "C", fun t => t.id,
            fun sg => sg.block_header_id⟩
          ⟨1, [0], "ts", some ⟨"m", "s", 0, "t", 0, [], 0, [], [], none⟩, none,
            [⟨"a", "1", "b", none, "t", "id0"⟩],
            some [⟨⟨"m", "s", 0, "t", 0, [], 0, [], [], none⟩, "h2", 0,
              ⟨0, []⟩⟩], []⟩ := by
  refine ⟨by decide, by decide, by decide, by decide, ?_⟩
  intro sha256
  unfold Block.calculate_hash
  congr 1

end PoT
